import Mathlib

/-!
# Verification of the element-screen-capture core

Shallow embedding of the capture-scheduling and frame-stitching pipeline of
the `element-screen-capture` extension, together with theorems settling the
spec claims about it.

Embedded source functions (JS names kept):
* `detectOverlap`            — `background.js`, overlap detection between frames
* `stitchFrames`             — `background.js`, frame cropping and assembly
* `calculateFrames`          — `content/scroller.js`, frame count / step size
* `calculateCropRegion`      — `content/scroller.js`, viewport intersection
* `captureWithScrollAndCrop` — content script, scroll/snapshot/retry loop

Modelling conventions: JS numbers carrying CSS-pixel geometry are embedded as
`ℚ` (the claims only exercise values on which binary floating point is exact);
pixel buffers, indices and counters are `ℕ`.  `Uint8ClampedArray` buffers are
total functions `ℕ → ℕ` (all reads performed by the embedded code are
in bounds for the inputs the claims quantify over).
-/

namespace ESC

/-! ## OverlapDetector (`background.js`, `detectOverlap`) -/

/-- An `ImageData`-style raster: RGBA bytes in row-major order, so the byte for
channel `c` of the pixel at column `x` of row `row` sits at flat index
`(row * width + x) * 4 + c`. -/
structure ImageData where
  width : ℕ
  height : ℕ
  data : ℕ → ℕ

/-- `Math.abs(a - b)` on byte values. -/
def byteDiff (a b : ℕ) : ℕ := ((a : ℤ) - (b : ℤ)).natAbs

/-- `const sampleCount = Math.min(width, 100);` -/
def sampleCount (width : ℕ) : ℕ := min width 100

/-- `const sampleStep = Math.floor(width / sampleCount);` (for `width = 0` the
JS quotient is `NaN`; the value is then never used because the sample loop is
empty, so the `ℕ` convention `0 / 0 = 0` is immaterial). -/
def sampleStep (width : ℕ) : ℕ := width / sampleCount width

/-- One sampled comparison: per-channel absolute difference on R, G, B with
tolerance 5 (`dr <= 5 && dg <= 5 && db <= 5`).  Both flat indices use
`prevData.width`, exactly as in the source. -/
def sampleMatches (prevData currData : ImageData) (prevRow currRow x : ℕ) : Bool :=
  let width := prevData.width
  let prevIdx := (prevRow * width + x) * 4
  let currIdx := (currRow * width + x) * 4
  decide (byteDiff (prevData.data prevIdx) (currData.data currIdx) ≤ 5) &&
  decide (byteDiff (prevData.data (prevIdx + 1)) (currData.data (currIdx + 1)) ≤ 5) &&
  decide (byteDiff (prevData.data (prevIdx + 2)) (currData.data (currIdx + 2)) ≤ 5)

/-- Matches among the sampled columns of one compared row pair, for overlap
candidate `k`: row `prevData.height - k + row` of the previous window against
row `row` of the current window. -/
def rowMatchCount (prevData currData : ImageData) (k row : ℕ) : ℕ :=
  ((List.range (sampleCount prevData.width)).filter (fun sample =>
    sampleMatches prevData currData (prevData.height - k + row) row
      (sample * sampleStep prevData.width))).length

/-- `matchCount` accumulated over the `k` compared rows. -/
def matchCount (prevData currData : ImageData) (k : ℕ) : ℕ :=
  ((List.range k).map (rowMatchCount prevData currData k)).sum

/-- `totalSamples` accumulated over the `k` compared rows. -/
def totalSamples (prevData : ImageData) (k : ℕ) : ℕ :=
  k * sampleCount prevData.width

/-- The acceptance test `matchCount / totalSamples > 0.95`.  The division is
exact rational division; for `totalSamples = 0` the JS expression is
`NaN > 0.95`, which is false, matching `0 / 0 = 0 > 95/100` here. -/
def matchRatioExceeds (mc ts : ℕ) : Prop :=
  (mc : ℚ) / (ts : ℚ) > 95 / 100

theorem matchRatioExceeds_iff (mc ts : ℕ) :
    matchRatioExceeds mc ts ↔ 95 * ts < 100 * mc ∧ 0 < ts := by
  unfold matchRatioExceeds
  rcases Nat.eq_zero_or_pos ts with h | h
  · subst h
    simp only [Nat.cast_zero, div_zero]
    constructor
    · intro hlt; exact absurd hlt (by norm_num)
    · rintro ⟨-, hts⟩; exact absurd hts (lt_irrefl 0)
  · have hts : (0 : ℚ) < (ts : ℚ) := by exact_mod_cast h
    rw [gt_iff_lt, div_lt_div_iff₀ (by norm_num) hts]
    constructor
    · intro hlt
      refine ⟨?_, h⟩
      have : (95 : ℚ) * ts < 100 * mc := by linarith
      exact_mod_cast this
    · rintro ⟨hlt, -⟩
      have : (95 : ℚ) * ts < 100 * mc := by exact_mod_cast hlt
      linarith

instance (mc ts : ℕ) : Decidable (matchRatioExceeds mc ts) :=
  decidable_of_iff _ (matchRatioExceeds_iff mc ts).symm

/-- The descending candidate search of `detectOverlap`: try `k`, `k-1`, …, `1`
and fall through to `0`. -/
def detectOverlapAux (prevData currData : ImageData) : ℕ → ℕ
  | 0 => 0
  | k + 1 =>
    if matchRatioExceeds (matchCount prevData currData (k + 1))
        (totalSamples prevData (k + 1)) then k + 1
    else detectOverlapAux prevData currData k

/-- `detectOverlap(prevData, currData, maxOverlap)` from `background.js`. -/
def detectOverlap (prevData currData : ImageData) (maxOverlap : ℕ) : ℕ :=
  detectOverlapAux prevData currData maxOverlap

/-! ## ImageStitcher (`background.js`, `stitchFrames`) -/

/-- The `cropRegion` record a frame carries (pixel-space, device-pixel scaled;
JS floats, hence `ℚ`). -/
structure CropRegion where
  x : ℚ
  y : ℚ
  width : ℚ
  height : ℚ
deriving DecidableEq

/-- One element of the `frames` array passed to `stitchFrames`: the decoded
bitmap together with its crop rectangle. -/
structure StitchFrame where
  image : ImageData
  cropRegion : CropRegion

/-- The destructured `options` of `stitchFrames`
(`{ detectDuplicates = true, maxOverlapHeight = 200 }`). -/
structure StitchOptions where
  detectDuplicates : Bool
  maxOverlapHeight : ℕ

/-- `Math.round` to a canvas dimension.  Negative rounded values do not occur
for the inputs quantified over by the claims. -/
def roundToNat (q : ℚ) : ℕ := (round q).toNat

/-- The per-frame cropping step: a canvas of size
`round(crop.width) × round(crop.height)` holding the source rectangle of the
frame's bitmap that starts at `(round(crop.x), round(crop.y))`. -/
def cropFrame (f : StitchFrame) : ImageData :=
  let cw := roundToNat f.cropRegion.width
  let ch := roundToNat f.cropRegion.height
  let cx := roundToNat f.cropRegion.x
  let cy := roundToNat f.cropRegion.y
  ⟨cw, ch, fun idx =>
    f.image.data ((cy + idx / (cw * 4)) * f.image.width * 4 + cx * 4 + idx % (cw * 4))⟩

/-- `ctx.getImageData(0, y, img.width, h)`: the `h` rows of `img` starting at
row `y`, as a fresh buffer. -/
def extractRows (img : ImageData) (y h : ℕ) : ImageData :=
  ⟨img.width, h, fun idx => img.data (y * img.width * 4 + idx)⟩

/-- The per-pair step of the stitcher's detection loop: window height
`checkHeight = Math.min(maxOverlapHeight, prev.height, curr.height)`, bottom
window of `prev` against top window of `curr`. -/
def pairOverlap (maxOverlapHeight : ℕ) (prev curr : ImageData) : ℕ :=
  let ch := min maxOverlapHeight (min prev.height curr.height)
  detectOverlap (extractRows prev (prev.height - ch) ch) (extractRows curr 0 ch) ch

/-- The overlaps pushed for `i = 1, …, n-1` when `detectDuplicates` holds. -/
def pairOverlaps (maxOverlapHeight : ℕ) : List ImageData → List ℕ
  | prev :: curr :: rest =>
      pairOverlap maxOverlapHeight prev curr :: pairOverlaps maxOverlapHeight (curr :: rest)
  | _ => []

/-- The full `overlaps` array: `overlaps[0] = 0`, then either detected values
or zeros depending on `detectDuplicates` (the source's
`detectDuplicates && length > 1` guard collapses to the same lists). -/
def overlapsOf (opts : StitchOptions) (cropped : List ImageData) : List ℕ :=
  if opts.detectDuplicates then 0 :: pairOverlaps opts.maxOverlapHeight cropped
  else 0 :: cropped.tail.map (fun _ => 0)

/-- The tail of the `totalHeight` accumulation: for `i > 0` each frame
contributes `height - overlaps[i]`. -/
def tailHeight : List ℕ → List ℕ → ℕ
  | h :: hs, ov :: ovs => (h - ov) + tailHeight hs ovs
  | _, _ => 0

/-- `totalHeight`: frame `0` contributes its full height (the source's
`i > 0 ? overlaps[i] : 0` guard), later frames their height minus overlap. -/
def totalHeightOf (heights overlaps : List ℕ) : ℕ :=
  match heights, overlaps with
  | h :: hs, _ :: ovs => h + tailHeight hs ovs
  | _, _ => 0

/-- The assembled output of `stitchFrames` (the final canvas dimensions;
`width` is `Math.round(frames[0].cropRegion.width)`). -/
structure Composite where
  width : ℕ
  height : ℕ
deriving DecidableEq

/-- `stitchFrames(frames, options)` from `background.js`: throws
`'No frames to stitch'` on an empty array, otherwise crops every frame,
computes the overlaps and returns the composite dimensions.  No other error
is ever raised. -/
def stitchFrames (frames : List StitchFrame) (opts : StitchOptions) :
    Except String Composite :=
  match frames with
  | [] => Except.error "No frames to stitch"
  | f0 :: _ =>
    let cropped := frames.map cropFrame
    Except.ok ⟨roundToNat f0.cropRegion.width,
      totalHeightOf (cropped.map ImageData.height) (overlapsOf opts cropped)⟩

/-! ## CaptureScheduler (`content/scroller.js`, `calculateFrames` and the
scroll-offset computation of `captureFrames`) -/

/-- The record returned by `calculateFrames`. -/
structure FrameInfo where
  totalFrames : ℕ
  frameHeight : ℚ
  scrollableHeight : ℚ
  initialScrollTop : ℚ
deriving DecidableEq

/-- `Math.ceil` of a (non-negative) quantity. -/
def ceilToNat (q : ℚ) : ℕ := (⌈q⌉).toNat

/-- `calculateFrames(element)` from `content/scroller.js`, abstracted over the
element metrics it reads (`clientHeight`, `scrollHeight`, `scrollTop`). -/
def calculateFrames (clientHeight scrollHeight scrollTop : ℚ) : FrameInfo :=
  let scrollableHeight := scrollHeight - clientHeight
  if scrollableHeight ≤ 0 then
    ⟨1, clientHeight, 0, scrollTop⟩
  else
    let effectiveHeight := clientHeight * (1 - 1/5)
    ⟨ceilToNat (scrollableHeight / effectiveHeight) + 1,
      effectiveHeight, scrollableHeight, scrollTop⟩

/-- The scroll target of frame `i` inside `captureFrames`:
`i === 0 ? 0 : Math.min(i * frameHeight, scrollableHeight)`. -/
def frameScrollTop (info : FrameInfo) (i : ℕ) : ℚ :=
  if i = 0 then 0 else min ((i : ℚ) * info.frameHeight) info.scrollableHeight

/-- The ordered list of scroll offsets visited by the capture loop. -/
def scrollOffsets (info : FrameInfo) : List ℚ :=
  (List.range info.totalFrames).map (frameScrollTop info)

/-! ## CropGeometryCalculator (`content/scroller.js`, `calculateCropRegion`) -/

/-- A `getBoundingClientRect()` result (viewport coordinates). -/
structure Rect where
  left : ℚ
  top : ℚ
  right : ℚ
  bottom : ℚ

/-- `calculateCropRegion(element)`: clamp the element's rect to the viewport
and scale by `devicePixelRatio`.  The extents are differences of the clamped
coordinates and are negative when the rect lies outside the viewport. -/
def calculateCropRegion (rect : Rect) (viewportWidth viewportHeight dpr : ℚ) :
    CropRegion :=
  let visibleLeft := max 0 rect.left
  let visibleTop := max 0 rect.top
  let visibleRight := min viewportWidth rect.right
  let visibleBottom := min viewportHeight rect.bottom
  ⟨visibleLeft * dpr, visibleTop * dpr,
    (visibleRight - visibleLeft) * dpr, (visibleBottom - visibleTop) * dpr⟩

/-- The target rectangle misses the viewport `[0,vw] × [0,vh]` as a region:
the clamped horizontal or vertical span is degenerate. -/
def intersectionEmpty (rect : Rect) (viewportWidth viewportHeight : ℚ) : Prop :=
  min viewportWidth rect.right ≤ max 0 rect.left ∨
  min viewportHeight rect.bottom ≤ max 0 rect.top

instance (rect : Rect) (vw vh : ℚ) : Decidable (intersectionEmpty rect vw vh) := by
  unfold intersectionEmpty; infer_instance

/-! ## Capture loop with retry (content script, `captureWithScrollAndCrop`)

The DOM scroll/snapshot ports are injected: the snapshot port is a stream
`ℕ → SnapResult` consumed one response per `CAPTURE_FRAME` message, and the
scroll state is threaded explicitly (the value last passed to `scrollTo`). -/

/-- One response of the snapshot port.  `rateLimited` is a failed response
whose error message contains `'quota'`; `failed` is any other failure. -/
inductive SnapResult
  | ok
  | rateLimited
  | failed
deriving DecidableEq

/-- The two ways the embedded loop throws. -/
inductive CaptureError
  | snapshotFailed
  | retriesExhausted
deriving DecidableEq

/-- The `while (retries > 0)` retry loop for a single frame, with `next` the
stream position and the second argument the remaining `retries`.  Success
returns the position after the consumed response; a non-quota failure throws
at once; a quota failure waits and decrements. -/
def attemptSnapshot (port : ℕ → SnapResult) : ℕ → ℕ → Except CaptureError ℕ
  | _, 0 => Except.error CaptureError.retriesExhausted
  | next, r + 1 =>
    match port next with
    | SnapResult.ok => Except.ok (next + 1)
    | SnapResult.rateLimited => attemptSnapshot port (next + 1) r
    | SnapResult.failed => Except.error CaptureError.snapshotFailed

/-- One frame's snapshot acquisition: `let retries = 3` attempts total. -/
def snapshotFrame (port : ℕ → SnapResult) (next : ℕ) : Except CaptureError ℕ :=
  attemptSnapshot port next 3

/-- The frame record captured per iteration (the fields relevant to the
scheduling claims: `scrollTop` is the loop's `relativeScrollTop`). -/
structure CapturedFrame where
  scrollTop : ℚ
  frameIndex : ℕ
deriving DecidableEq

/-- Outcome of a capture run: the thrown error or the ordered frame list,
together with the container's scroll offset when control leaves the loop.
The restoring `scrollTo(scrollContainer, initialScrollTop)` sits inside the
`try` block after the loop, so it only runs on the success path; the `finally`
block restores scrollbar styling only. -/
structure ScrollCaptureResult where
  result : Except CaptureError (List CapturedFrame)
  finalScrollTop : ℚ

/-- `relativeScrollTop` of frame `i`:
`i === 0 ? 0 : Math.min(i * effectiveHeight, scrollableForTarget)`. -/
def relScrollTop (effectiveHeight scrollableForTarget : ℚ) (i : ℕ) : ℚ :=
  if i = 0 then 0 else min ((i : ℚ) * effectiveHeight) scrollableForTarget

/-- The `for (let i = 0; i < totalFrames; i++)` loop.  `rem` counts the
remaining iterations (`totalFrames - i`); when it reaches `0` the loop falls
through to the restoring `scrollTo` and returns the accumulated frames.  An
error from the snapshot step propagates out of the `try`, leaving the scroll
offset at the frame's `targetOffsetTop + relativeScrollTop`. -/
def captureLoop (port : ℕ → SnapResult)
    (targetOffsetTop effectiveHeight scrollableForTarget initialScrollTop : ℚ) :
    ℕ → ℕ → ℕ → List CapturedFrame → ScrollCaptureResult
  | _, 0, _, acc => ⟨Except.ok acc.reverse, initialScrollTop⟩
  | i, rem + 1, next, acc =>
    let rel := relScrollTop effectiveHeight scrollableForTarget i
    match snapshotFrame port next with
    | Except.error e => ⟨Except.error e, targetOffsetTop + rel⟩
    | Except.ok next' =>
      captureLoop port targetOffsetTop effectiveHeight scrollableForTarget
        initialScrollTop (i + 1) rem next' (⟨rel, i⟩ :: acc)

/-- `captureWithScrollAndCrop` from the content script, abstracted over the
metrics it reads: `targetOffsetTop` (offset of the crop target in the scroll
container), `targetHeight` (`scrollHeight || offsetHeight` of the target),
`containerVisibleHeight` (`clientHeight` of the container) and the recorded
`initialScrollTop`. -/
def captureWithScrollAndCrop (port : ℕ → SnapResult)
    (targetOffsetTop targetHeight containerVisibleHeight initialScrollTop : ℚ) :
    ScrollCaptureResult :=
  let scrollableForTarget := max 0 (targetHeight - containerVisibleHeight)
  let effectiveHeight := containerVisibleHeight * (1 - 1/5)
  let totalFrames := if 0 < scrollableForTarget then
    ceilToNat (scrollableForTarget / effectiveHeight) + 1 else 1
  captureLoop port targetOffsetTop effectiveHeight scrollableForTarget
    initialScrollTop 0 totalFrames 0 []

/-! ## Helper lemmas -/

/-- Rounding a natural-valued crop coordinate is the identity. -/
theorem roundToNat_natCast (n : ℕ) : roundToNat ((n : ℕ) : ℚ) = n := by
  simp [roundToNat, round_natCast]

/-- The scheduler arithmetic of the spec scenario:
`ceil(scrollableHeight / step) = ceil(500 / 400) = 2`. -/
theorem ceil_scenario : (⌈(1000 - 500 : ℚ) / (500 * (1 - 1/5))⌉ : ℤ) = 2 := by
  rw [Int.ceil_eq_iff]
  constructor
  · norm_num
  · norm_num

/-- Evaluation of `calculateFrames` on the spec's scheduler scenario. -/
theorem calculateFrames_scenario : calculateFrames 500 1000 0 = ⟨3, 400, 500, 0⟩ := by
  simp only [calculateFrames, ceilToNat]
  rw [if_neg (by norm_num), ceil_scenario]
  norm_num
  rfl

/-- Evaluation of the visited scroll offsets on the spec's scheduler
scenario. -/
theorem scrollOffsets_scenario :
    scrollOffsets ⟨3, 400, 500, 0⟩ = [0, 400, 500] := by
  simp only [scrollOffsets, List.range_succ, List.map_append, List.map_cons,
    List.map_nil, frameScrollTop]
  norm_num [min_def]

/-- Rounding a numeral crop coordinate is the identity. -/
theorem roundToNat_ofNat (n : ℕ) [n.AtLeastTwo] :
    roundToNat (no_index (OfNat.ofNat n)) = OfNat.ofNat n := by
  simp [roundToNat, round_ofNat]; rfl

/-- Rounding the zero crop coordinate. -/
theorem roundToNat_zero : roundToNat 0 = 0 := by simp [roundToNat]

/-! ## Claim C9 -/

/-- C9: `stitchFrames` applied to an empty frame list raises the error
`'No frames to stitch'` and produces no composite image. -/
theorem c9_stitchFrames_empty (opts : StitchOptions) :
    stitchFrames [] opts = Except.error "No frames to stitch" ∧
    ∀ comp : Composite, stitchFrames [] opts ≠ Except.ok comp := by
  refine ⟨rfl, fun comp h => ?_⟩
  simp [stitchFrames] at h

/-! ## Claim C10 -/

/-- On zero-width input no candidate ever passes the acceptance test:
`totalSamples = k * min 0 100 = 0`, so the match fraction never exceeds the
threshold. -/
theorem detectOverlapAux_zero_width (prevData currData : ImageData)
    (hp : prevData.width = 0) : ∀ n, detectOverlapAux prevData currData n = 0 := by
  intro n
  induction n with
  | zero => rfl
  | succ k ih =>
    unfold detectOverlapAux
    rw [if_neg, ih]
    rw [matchRatioExceeds_iff]
    simp [totalSamples, sampleCount, hp]

/-- C10: for every `maxOverlap ≥ 1`, `detectOverlap` applied to two frames of
width 0 returns 0 — the sample loop runs zero times, the match fraction never
exceeds the threshold, and no division-related failure occurs. -/
theorem c10_detectOverlap_zero_width (prevData currData : ImageData)
    (maxOverlap : ℕ) (hp : prevData.width = 0) (hc : currData.width = 0)
    (hm : 1 ≤ maxOverlap) : detectOverlap prevData currData maxOverlap = 0 :=
  detectOverlapAux_zero_width prevData currData hp maxOverlap

/-- Zero-width example frames. -/
def imgDegenA : ImageData := ⟨0, 4, fun _ => 3⟩

/-- Zero-width example frames. -/
def imgDegenB : ImageData := ⟨0, 2, fun _ => 9⟩

/-- Witness for C10 at a concrete degenerate input. -/
theorem c10_witness :
    imgDegenA.width = 0 ∧ imgDegenB.width = 0 ∧ 1 ≤ 3 ∧
    detectOverlap imgDegenA imgDegenB 3 = 0 :=
  ⟨rfl, rfl, by norm_num, c10_detectOverlap_zero_width imgDegenA imgDegenB 3 rfl rfl (by norm_num)⟩

/-! ## Claim C1 -/

/-- C1 counterexample: with `scrollExtent = 1000` and `clientExtent = 500` the
code schedules 3 frames (not 4) and visits `[0, 400, 500]` (not
`[0, 400, 800, 1000]`): `scrollableHeight = 1000 - 500 = 500`, so
`totalFrames = ceil(500/400) + 1 = 3` and every offset is capped at 500. -/
theorem c1_counterexample :
    (calculateFrames 500 1000 0).totalFrames ≠ 4 ∧
    scrollOffsets (calculateFrames 500 1000 0) ≠ [0, 400, 800, 1000] := by
  rw [calculateFrames_scenario, scrollOffsets_scenario]
  refine ⟨by norm_num, fun h => ?_⟩
  have := congrArg (fun l => l.getD 2 0) h
  norm_num at this

/-- C1 amended: for a CaptureTarget with `scrollExtent = 1000` and
`clientExtent = 500`, the scheduler uses `step = clientExtent * 0.8 = 400`,
schedules `totalFrames = ceil(scrollableHeight / step) + 1
= ceil(500/400) + 1 = 3` frames, and visits the scroll offsets
`[0, 400, 500]` in that order (offset for frame `i` is `0` if `i = 0`, else
`min(i * step, scrollableHeight)`). -/
theorem c1_amended :
    (calculateFrames 500 1000 0).frameHeight = 400 ∧
    (calculateFrames 500 1000 0).totalFrames = 3 ∧
    scrollOffsets (calculateFrames 500 1000 0) = [0, 400, 500] := by
  rw [calculateFrames_scenario, scrollOffsets_scenario]
  exact ⟨rfl, rfl, rfl⟩

/-! ## Claim C5 -/

/-- A 10-pixel-wide frame (blank bitmap, crop covering it). -/
def frameNarrow : StitchFrame := ⟨⟨10, 20, fun _ => 0⟩, ⟨0, 0, 10, 20⟩⟩

/-- A 20-pixel-wide frame (blank bitmap, crop covering it). -/
def frameWide : StitchFrame := ⟨⟨20, 20, fun _ => 0⟩, ⟨0, 0, 20, 20⟩⟩

/-- C5 counterexample: two frames whose cropped widths differ (10 vs 20) are
stitched without any error — `stitchFrames` performs no width check and
returns a composite of the first frame's width. -/
theorem c5_counterexample :
    (cropFrame frameNarrow).width ≠ (cropFrame frameWide).width ∧
    stitchFrames [frameNarrow, frameWide] ⟨false, 200⟩ = Except.ok ⟨10, 40⟩ := by
  constructor
  · simp [cropFrame, frameNarrow, frameWide, roundToNat_ofNat]
  · simp only [stitchFrames, frameNarrow, frameWide, List.map, cropFrame,
      roundToNat_ofNat, overlapsOf, List.tail]
    simp [totalHeightOf, tailHeight]

/-- C5 amended: `stitchFrames` never checks cropped widths against each other;
for every non-empty frame list (mismatched widths included) it succeeds and
returns a composite whose width is the first frame's cropped width. -/
theorem c5_amended (f0 : StitchFrame) (fs : List StitchFrame)
    (opts : StitchOptions) :
    ∃ comp : Composite, stitchFrames (f0 :: fs) opts = Except.ok comp ∧
      comp.width = (cropFrame f0).width := by
  exact ⟨_, rfl, rfl⟩

/-! ## Claim C6 -/

/-- C6 counterexample: a target rectangle fully to the right of a 100×100
viewport yields (at `devicePixelRatio = 2`) a crop rectangle of width `-200`
— a negative-extent rectangle, not a zero-area one. -/
theorem c6_counterexample :
    intersectionEmpty ⟨200, 10, 300, 60⟩ 100 100 ∧
    (calculateCropRegion ⟨200, 10, 300, 60⟩ 100 100 2).width = -200 ∧
    ¬ ((calculateCropRegion ⟨200, 10, 300, 60⟩ 100 100 2).width = 0 ∨
       (calculateCropRegion ⟨200, 10, 300, 60⟩ 100 100 2).height = 0) := by
  norm_num [intersectionEmpty, calculateCropRegion, min_def, max_def]

/-- C6 amended: for every target rectangle whose intersection with the
viewport `[0,0,viewportW,viewportH]` is empty, the crop-geometry computation
returns a rectangle with non-positive (possibly negative, not necessarily
zero) width or height; it always returns the clamped rectangle's coordinates
and extents scaled by the device pixel scale, and when the intersection is
non-empty both extents are positive. -/
theorem c6_amended (rect : Rect) (vw vh dpr : ℚ) (hdpr : 0 < dpr) :
    (intersectionEmpty rect vw vh →
      (calculateCropRegion rect vw vh dpr).width ≤ 0 ∨
      (calculateCropRegion rect vw vh dpr).height ≤ 0) ∧
    ((calculateCropRegion rect vw vh dpr).x = max 0 rect.left * dpr ∧
     (calculateCropRegion rect vw vh dpr).y = max 0 rect.top * dpr ∧
     (calculateCropRegion rect vw vh dpr).width
        = (min vw rect.right - max 0 rect.left) * dpr ∧
     (calculateCropRegion rect vw vh dpr).height
        = (min vh rect.bottom - max 0 rect.top) * dpr) ∧
    (¬ intersectionEmpty rect vw vh →
      0 < (calculateCropRegion rect vw vh dpr).width ∧
      0 < (calculateCropRegion rect vw vh dpr).height) := by
  unfold calculateCropRegion intersectionEmpty
  refine ⟨?_, ⟨rfl, rfl, rfl, rfl⟩, ?_⟩
  · rintro (h | h)
    · left
      exact mul_nonpos_iff.mpr (Or.inr ⟨by linarith, hdpr.le⟩)
    · right
      exact mul_nonpos_iff.mpr (Or.inr ⟨by linarith, hdpr.le⟩)
  · intro h
    push_neg at h
    exact ⟨mul_pos (by linarith [h.1]) hdpr, mul_pos (by linarith [h.2]) hdpr⟩

/-- Witness for C6 at a concrete off-viewport rectangle. -/
theorem c6_witness :
    (calculateCropRegion ⟨200, 10, 300, 60⟩ 100 100 2).width ≤ 0 ∨
    (calculateCropRegion ⟨200, 10, 300, 60⟩ 100 100 2).height ≤ 0 :=
  (c6_amended ⟨200, 10, 300, 60⟩ 100 100 2 (by norm_num)).1
    (by norm_num [intersectionEmpty, min_def, max_def])

/-! ## Claim C7 -/

/-- The descending search never returns more than the first tried
candidate. -/
theorem detectOverlapAux_le (prevData currData : ImageData) :
    ∀ n, detectOverlapAux prevData currData n ≤ n := by
  intro n
  induction n with
  | zero => exact le_rfl
  | succ k ih =>
    unfold detectOverlapAux
    split
    · exact le_rfl
    · exact ih.trans (Nat.le_succ k)

/-- `detectOverlap` is bounded by the `maxOverlap` argument. -/
theorem detectOverlap_le (prevData currData : ImageData) (m : ℕ) :
    detectOverlap prevData currData m ≤ m :=
  detectOverlapAux_le prevData currData m

/-- Each pairwise overlap is bounded by the stitcher's
`checkHeight = min(maxOverlapHeight, prev.height, curr.height)`. -/
theorem pairOverlap_le (m : ℕ) (prev curr : ImageData) :
    pairOverlap m prev curr ≤ min m (min prev.height curr.height) :=
  detectOverlap_le _ _ _

/-- Looking up an all-zeros list yields zero. -/
theorem getD_map_zero (l : List ImageData) :
    ∀ j, (l.map fun _ => (0 : ℕ)).getD j 0 = 0 := by
  induction l with
  | nil => intro j; simp
  | cons a tl ih =>
    intro j
    cases j with
    | zero => simp
    | succ j => simpa using ih j

/-- Indexed form of the pairwise bound over the whole overlaps list. -/
theorem pairOverlaps_getD_le (m : ℕ) :
    ∀ (l : List ImageData) (j : ℕ), j + 1 < l.length →
      (pairOverlaps m l).getD j 0 ≤
        min m (min ((l.map ImageData.height).getD j 0)
          ((l.map ImageData.height).getD (j + 1) 0))
  | [], j, h => by simp at h
  | [a], j, h => by simp at h
  | a :: b :: rest, 0, _ => by
      simpa [pairOverlaps] using pairOverlap_le m a b
  | a :: b :: rest, j + 1, h => by
      have ih := pairOverlaps_getD_le m (b :: rest) j (by simpa using h)
      simpa [pairOverlaps] using ih

/-- C7: for every StitchOptions, every cropped frame sequence and every index
`i > 0`, the computed overlap satisfies
`0 ≤ overlap[i] ≤ min(maxOverlapHeight, croppedHeight[i-1], croppedHeight[i])`. -/
theorem c7_overlap_bounds (opts : StitchOptions) (cropped : List ImageData)
    (i : ℕ) (h0 : 0 < i) (hi : i < cropped.length) :
    0 ≤ (overlapsOf opts cropped).getD i 0 ∧
    (overlapsOf opts cropped).getD i 0 ≤
      min opts.maxOverlapHeight
        (min ((cropped.map ImageData.height).getD (i - 1) 0)
             ((cropped.map ImageData.height).getD i 0)) := by
  refine ⟨Nat.zero_le _, ?_⟩
  obtain ⟨j, rfl⟩ : ∃ j, i = j + 1 := ⟨i - 1, by omega⟩
  unfold overlapsOf
  split
  · simp only [List.getD_cons_succ, Nat.add_sub_cancel]
    exact pairOverlaps_getD_le opts.maxOverlapHeight cropped j (by omega)
  · simp only [List.getD_cons_succ, Nat.add_sub_cancel]
    rw [getD_map_zero cropped.tail j]
    exact Nat.zero_le _

/-- A 1×2 blank example frame. -/
def imgSmallA : ImageData := ⟨1, 2, fun _ => 0⟩

/-- Another 1×2 blank example frame. -/
def imgSmallB : ImageData := ⟨1, 2, fun _ => 0⟩

/-- Witness for C7 at a concrete two-frame input with detection enabled. -/
theorem c7_witness :
    0 < 1 ∧ 1 < [imgSmallA, imgSmallB].length ∧
    (0 ≤ (overlapsOf ⟨true, 5⟩ [imgSmallA, imgSmallB]).getD 1 0 ∧
     (overlapsOf ⟨true, 5⟩ [imgSmallA, imgSmallB]).getD 1 0 ≤
       min 5 (min (([imgSmallA, imgSmallB].map ImageData.height).getD (1 - 1) 0)
         (([imgSmallA, imgSmallB].map ImageData.height).getD 1 0))) :=
  ⟨by decide, by decide,
    c7_overlap_bounds ⟨true, 5⟩ [imgSmallA, imgSmallB] 1 (by decide) (by decide)⟩

/-! ## Claim C3 -/

/-- With detection disabled the tail accumulation degenerates to the plain
height sum. -/
theorem tailHeight_zeros (rest : List ImageData) :
    tailHeight (rest.map ImageData.height) (rest.map fun _ => 0)
      = (rest.map ImageData.height).sum := by
  induction rest with
  | nil => rfl
  | cons c tl ih =>
    simp only [List.map_cons, tailHeight, List.sum_cons, Nat.sub_zero, ih]

/-- `overlapsOf` with detection disabled. -/
theorem overlapsOf_false (opts : StitchOptions) (cropped : List ImageData)
    (h : opts.detectDuplicates = false) :
    overlapsOf opts cropped = 0 :: cropped.tail.map (fun _ => 0) := by
  unfold overlapsOf
  simp [h]

/-- `overlapsOf` with detection enabled. -/
theorem overlapsOf_true (opts : StitchOptions) (cropped : List ImageData)
    (h : opts.detectDuplicates = true) :
    overlapsOf opts cropped
      = 0 :: pairOverlaps opts.maxOverlapHeight cropped := by
  unfold overlapsOf
  simp [h]

/-- With detection enabled the tail accumulation is the height sum minus the
overlap sum (exactly, in `ℤ`): each subtraction is protected by the
`checkHeight` bound. -/
theorem tailHeight_pairOverlaps (m : ℕ) :
    ∀ (rest : List ImageData) (prev : ImageData),
      (tailHeight (rest.map ImageData.height) (pairOverlaps m (prev :: rest)) : ℤ)
        = ((rest.map ImageData.height).sum : ℤ)
          - ((pairOverlaps m (prev :: rest)).sum : ℤ)
  | [], prev => by simp [pairOverlaps, tailHeight]
  | c :: rest, prev => by
      have ih := tailHeight_pairOverlaps m rest c
      have hle : pairOverlap m prev c ≤ c.height :=
        (pairOverlap_le m prev c).trans
          ((min_le_right _ _).trans (min_le_right _ _))
      simp only [pairOverlaps, List.map_cons, tailHeight, List.sum_cons]
      push_cast [Nat.cast_sub hle]
      rw [ih]
      push_cast
      ring

/-- C3: for every non-empty frame list and StitchOptions, the composite
height equals the sum of the cropped frame heights minus the sum of the
overlaps for `i > 0`; and when `detectDuplicates` is false every overlap is
`0` and the composite height is exactly the sum of cropped heights. -/
theorem c3_stitch_height (f0 : StitchFrame) (fs : List StitchFrame)
    (opts : StitchOptions) (comp : Composite)
    (h : stitchFrames (f0 :: fs) opts = Except.ok comp) :
    ((comp.height : ℤ) =
      ((((f0 :: fs).map cropFrame).map ImageData.height).sum : ℤ)
        - (((overlapsOf opts ((f0 :: fs).map cropFrame)).tail).sum : ℤ)) ∧
    (opts.detectDuplicates = false →
      (∀ ov ∈ overlapsOf opts ((f0 :: fs).map cropFrame), ov = 0) ∧
      comp.height = (((f0 :: fs).map cropFrame).map ImageData.height).sum) := by
  simp only [stitchFrames, Except.ok.injEq] at h
  subst h
  simp only
  cases hd : opts.detectDuplicates with
  | true =>
    refine ⟨?_, fun hfalse => absurd hfalse (by decide)⟩
    rw [overlapsOf_true opts _ hd]
    simp only [List.map_cons, List.tail_cons, totalHeightOf, List.sum_cons]
    have := tailHeight_pairOverlaps opts.maxOverlapHeight (fs.map cropFrame)
      (cropFrame f0)
    push_cast
    rw [this]
    push_cast
    ring
  | false =>
    have hz : ∀ ov ∈ overlapsOf opts ((f0 :: fs).map cropFrame), ov = 0 := by
      intro ov hov
      rw [overlapsOf_false opts _ hd] at hov
      rcases List.mem_cons.mp hov with h0 | hmem
      · exact h0
      · obtain ⟨a, -, ha⟩ := List.mem_map.mp hmem
        exact ha.symm
    have hheight :
        totalHeightOf (((f0 :: fs).map cropFrame).map ImageData.height)
            (overlapsOf opts ((f0 :: fs).map cropFrame))
          = (((f0 :: fs).map cropFrame).map ImageData.height).sum := by
      rw [overlapsOf_false opts _ hd]
      simp only [List.map_cons, List.tail_cons, totalHeightOf, List.sum_cons]
      rw [tailHeight_zeros]
    refine ⟨?_, fun _ => ⟨hz, hheight⟩⟩
    rw [hheight]
    have hzsum : ((overlapsOf opts ((f0 :: fs).map cropFrame)).tail).sum = 0 := by
      rw [overlapsOf_false opts _ hd]
      simp only [List.tail_cons]
      refine List.sum_eq_zero ?_
      intro x hx
      obtain ⟨a, -, ha⟩ := List.mem_map.mp hx
      exact ha.symm
    rw [hzsum]
    push_cast
    ring

/-- A 10×30 blank frame used in the stitch witnesses. -/
def frameTall : StitchFrame := ⟨⟨10, 30, fun _ => 0⟩, ⟨0, 0, 10, 30⟩⟩

/-- Witness for C3 on a concrete two-frame stitch with detection disabled. -/
theorem c3_witness :
    (((Composite.mk 10 50).height : ℤ) =
      ((([frameNarrow, frameTall].map cropFrame).map ImageData.height).sum : ℤ)
        - (((overlapsOf ⟨false, 7⟩
              ([frameNarrow, frameTall].map cropFrame)).tail).sum : ℤ)) ∧
    ((StitchOptions.mk false 7).detectDuplicates = false →
      (∀ ov ∈ overlapsOf ⟨false, 7⟩ ([frameNarrow, frameTall].map cropFrame),
        ov = 0) ∧
      (Composite.mk 10 50).height
        = (([frameNarrow, frameTall].map cropFrame).map ImageData.height).sum) :=
  c3_stitch_height frameNarrow [frameTall] ⟨false, 7⟩ ⟨10, 50⟩ (by
    simp only [stitchFrames, frameNarrow, frameTall, List.map, cropFrame,
      roundToNat_ofNat, overlapsOf, List.tail]
    simp [totalHeightOf, tailHeight])

/-! ## Claim C4 -/

/-- A byte compared against itself always matches. -/
theorem byteDiff_self (a : ℕ) : byteDiff a a = 0 := by simp [byteDiff]

/-- At least one column is sampled whenever the width is positive. -/
theorem sampleCount_pos (w : ℕ) (hw : 0 < w) : 0 < sampleCount w :=
  lt_min hw (by norm_num)

/-- Every sampled column index lies inside the frame width. -/
theorem sample_x_lt (w s : ℕ) (hw : 0 < w) (hs : s < sampleCount w) :
    s * sampleStep w < w := by
  unfold sampleStep
  have hsc := sampleCount_pos w hw
  have hscw : sampleCount w ≤ w := min_le_left _ _
  have hq1 : 1 ≤ w / sampleCount w := (Nat.one_le_div_iff hsc).mpr hscw
  have hqw : w / sampleCount w * sampleCount w ≤ w := Nat.div_mul_le_self w _
  have h2 : s * (w / sampleCount w) ≤ (sampleCount w - 1) * (w / sampleCount w) :=
    Nat.mul_le_mul_right _ (by omega)
  have h3 : (sampleCount w - 1) * (w / sampleCount w)
      = sampleCount w * (w / sampleCount w) - w / sampleCount w := by
    rw [Nat.sub_mul, one_mul]
  have h4 : sampleCount w * (w / sampleCount w)
      = w / sampleCount w * sampleCount w := Nat.mul_comm _ _
  omega

/-- If the two windows agree byte-for-byte on R, G and B over their whole
common extent, the top candidate `h` already passes the acceptance test, so
the descending search returns `h` immediately. -/
theorem detectOverlap_identical (P C : ImageData) (h : ℕ)
    (hCw : C.width = P.width) (hw : 0 < P.width)
    (hPh : P.height = h) (hCh : C.height = h) (hh : 1 ≤ h)
    (hid : ∀ row < h, ∀ x < P.width, ∀ c < 3,
      P.data ((row * P.width + x) * 4 + c)
        = C.data ((row * C.width + x) * 4 + c)) :
    detectOverlap P C h = h := by
  obtain ⟨k, rfl⟩ : ∃ k, h = k + 1 := ⟨h - 1, by omega⟩
  have hrow : ∀ row ∈ List.range (k + 1),
      rowMatchCount P C (k + 1) row = sampleCount P.width := by
    intro row hrowmem
    have hrowlt := List.mem_range.mp hrowmem
    unfold rowMatchCount
    rw [List.filter_eq_self.mpr ?_, List.length_range]
    intro sample hsample
    have hslt := List.mem_range.mp hsample
    have hx : sample * sampleStep P.width < P.width :=
      sample_x_lt P.width sample hw hslt
    have e0 := hid row hrowlt (sample * sampleStep P.width) hx 0 (by norm_num)
    have e1 := hid row hrowlt (sample * sampleStep P.width) hx 1 (by norm_num)
    have e2 := hid row hrowlt (sample * sampleStep P.width) hx 2 (by norm_num)
    rw [hCw] at e0 e1 e2
    simp only [Nat.add_zero] at e0
    have hprevRow : P.height - (k + 1) + row = row := by omega
    unfold sampleMatches
    simp only [hprevRow, e0, e1, e2, byteDiff_self]
    norm_num
  have hmc : matchCount P C (k + 1) = (k + 1) * sampleCount P.width := by
    unfold matchCount
    rw [List.map_congr_left hrow, List.map_const', List.sum_replicate,
      List.length_range, smul_eq_mul]
  unfold detectOverlap detectOverlapAux
  rw [if_pos]
  rw [matchRatioExceeds_iff, hmc]
  simp only [totalSamples]
  have hsc := sampleCount_pos P.width hw
  constructor
  · have hpos : 0 < (k + 1) * sampleCount P.width := Nat.mul_pos (by omega) hsc
    omega
  · exact Nat.mul_pos (by omega) hsc

/-- C4: for every pair of adjacent cropped frames of equal width `w > 0`
whose last `h` rows (previous frame) are pixel-identical on R, G, B to the
first `h` rows (current frame), where
`h = min(maxOverlapHeight, previousHeight, currentHeight) ≥ 1` is the full
search window, the overlap detector returns exactly `h` (the maximal
candidate wins in the descending search), not a smaller value. -/
theorem c4_full_window_overlap (m : ℕ) (prev curr : ImageData)
    (hw : curr.width = prev.width) (hwpos : 0 < prev.width)
    (hh : 1 ≤ min m (min prev.height curr.height))
    (hid : ∀ row < min m (min prev.height curr.height), ∀ x < prev.width,
      ∀ c < 3,
      prev.data
        (((prev.height - min m (min prev.height curr.height) + row)
            * prev.width + x) * 4 + c)
        = curr.data ((row * curr.width + x) * 4 + c)) :
    pairOverlap m prev curr = min m (min prev.height curr.height) := by
  have hmain := detectOverlap_identical
    (extractRows prev (prev.height - min m (min prev.height curr.height))
      (min m (min prev.height curr.height)))
    (extractRows curr 0 (min m (min prev.height curr.height)))
    (min m (min prev.height curr.height))
    hw hwpos rfl rfl hh ?_
  · exact hmain
  · intro row hrow x hx c hc
    have e := hid row hrow x hx c hc
    simp only [extractRows]
    have hidx1 : (prev.height - min m (min prev.height curr.height))
          * prev.width * 4 + ((row * prev.width + x) * 4 + c)
        = ((prev.height - min m (min prev.height curr.height) + row)
            * prev.width + x) * 4 + c := by ring
    have hidx2 : 0 * curr.width * 4 + ((row * curr.width + x) * 4 + c)
        = (row * curr.width + x) * 4 + c := by ring
    rw [hidx1, hidx2]
    exact e

/-- A 1×3 frame of constant bytes. -/
def imgConstA : ImageData := ⟨1, 3, fun _ => 7⟩

/-- A 1×2 frame of the same constant bytes. -/
def imgConstB : ImageData := ⟨1, 2, fun _ => 7⟩

/-- Witness for C4 at a concrete pair of constant frames with full window
`h = min(2, 3, 2) = 2`. -/
theorem c4_witness :
    imgConstB.width = imgConstA.width ∧ 0 < imgConstA.width ∧
    1 ≤ min 2 (min imgConstA.height imgConstB.height) ∧
    (∀ row < min 2 (min imgConstA.height imgConstB.height),
      ∀ x < imgConstA.width, ∀ c < 3,
      imgConstA.data
        (((imgConstA.height - min 2 (min imgConstA.height imgConstB.height)
            + row) * imgConstA.width + x) * 4 + c)
        = imgConstB.data ((row * imgConstB.width + x) * 4 + c)) ∧
    pairOverlap 2 imgConstA imgConstB
      = min 2 (min imgConstA.height imgConstB.height) :=
  ⟨rfl, by decide, by decide, by decide,
    c4_full_window_overlap 2 imgConstA imgConstB rfl (by decide) (by decide)
      (by decide)⟩

/-! ## Claim C2 -/

/-- A port that succeeds once, then rate-limits forever. -/
def cexPort : ℕ → SnapResult :=
  fun n => if n = 0 then SnapResult.ok else SnapResult.rateLimited

/-- Frame-count arithmetic of the abort scenario
(`targetHeight = 1000`, `containerVisibleHeight = 500`). -/
theorem ceil_cex : ceilToNat (max (0:ℚ) (1000 - 500) / (500 * (1 - 1/5))) = 2 := by
  unfold ceilToNat
  have h : (⌈max (0:ℚ) (1000 - 500) / (500 * (1 - 1/5))⌉ : ℤ) = 2 := by
    rw [Int.ceil_eq_iff]
    constructor
    · norm_num [max_def]
    · norm_num [max_def]
  rw [h]
  rfl

/-- Full evaluation of the abort scenario: frame 0 succeeds, frame 1
exhausts its three attempts, and control leaves the loop with the scroll
offset still at frame 1's target offset `0 + min(1*400, 500) = 400`. -/
theorem c2_cex_eval : captureWithScrollAndCrop cexPort 0 1000 500 123
    = ⟨Except.error CaptureError.retriesExhausted, 400⟩ := by
  have hs0 : snapshotFrame cexPort 0 = Except.ok 1 := by
    simp [snapshotFrame, attemptSnapshot, cexPort]
  have hs1 : snapshotFrame cexPort 1
      = Except.error CaptureError.retriesExhausted := by
    simp [snapshotFrame, attemptSnapshot, cexPort]
  simp only [captureWithScrollAndCrop, ceil_cex]
  rw [if_pos (by norm_num [max_def])]
  simp only [captureLoop, relScrollTop, hs0, hs1]
  norm_num [min_def, max_def]

/-- C2 counterexample: a capture whose snapshot retries are exhausted on
frame 1 fails, and the final scroll offset is `400`, not the pre-capture
value `123` — the restoring `scrollTo` sits inside the `try` block after the
loop and is skipped on the abort path. -/
theorem c2_counterexample :
    (captureWithScrollAndCrop cexPort 0 1000 500 123).result
      = Except.error CaptureError.retriesExhausted ∧
    (captureWithScrollAndCrop cexPort 0 1000 500 123).finalScrollTop ≠ 123 := by
  rw [c2_cex_eval]
  exact ⟨rfl, by norm_num⟩

/-- On the success path the loop always falls through to the restoring
`scrollTo(initialScrollTop)`. -/
theorem captureLoop_ok_final (port : ℕ → SnapResult) (top eff scr init : ℚ) :
    ∀ (rem i next : ℕ) (acc frames : List CapturedFrame),
      (captureLoop port top eff scr init i rem next acc).result
          = Except.ok frames →
      (captureLoop port top eff scr init i rem next acc).finalScrollTop
          = init := by
  intro rem
  induction rem with
  | zero => intro i next acc frames _; rfl
  | succ r ih =>
    intro i next acc frames h
    cases hsf : snapshotFrame port next with
    | error e =>
      rw [captureLoop] at h
      simp only [hsf] at h
      exact absurd h (by simp)
    | ok next1 =>
      rw [captureLoop] at h ⊢
      simp only [hsf] at h ⊢
      exact ih (i + 1) next1 _ frames h

/-- On the abort path the loop exits with the scroll offset of the aborting
frame, never the recorded initial offset. -/
theorem captureLoop_error_final (port : ℕ → SnapResult)
    (top eff scr init : ℚ) :
    ∀ (rem i next : ℕ) (acc : List CapturedFrame) (e : CaptureError),
      (captureLoop port top eff scr init i rem next acc).result
          = Except.error e →
      ∃ j, (captureLoop port top eff scr init i rem next acc).finalScrollTop
          = top + relScrollTop eff scr j := by
  intro rem
  induction rem with
  | zero => intro i next acc e h; exact absurd h (by simp [captureLoop])
  | succ r ih =>
    intro i next acc e h
    cases hsf : snapshotFrame port next with
    | error e1 =>
      rw [captureLoop] at h ⊢
      simp only [hsf] at h ⊢
      exact ⟨i, rfl⟩
    | ok next1 =>
      rw [captureLoop] at h ⊢
      simp only [hsf] at h ⊢
      exact ih (i + 1) next1 _ e h

/-- C2 amended: the scroll offset recorded before the first frame is
restored on the successful exit path; when the capture aborts with an error
(in particular when snapshot retries are exhausted on some frame) the
restoration step does not run, and the offset remains at the aborting
frame's target offset `targetOffsetTop + relativeScrollTop`. -/
theorem c2_amended (port : ℕ → SnapResult) (top th cvh init : ℚ) :
    (∀ frames, (captureWithScrollAndCrop port top th cvh init).result
          = Except.ok frames →
      (captureWithScrollAndCrop port top th cvh init).finalScrollTop = init) ∧
    (∀ e, (captureWithScrollAndCrop port top th cvh init).result
          = Except.error e →
      ∃ j, (captureWithScrollAndCrop port top th cvh init).finalScrollTop
          = top + relScrollTop (cvh * (1 - 1/5)) (max 0 (th - cvh)) j) := by
  constructor
  · intro frames h
    exact captureLoop_ok_final port top _ _ init _ 0 0 [] frames h
  · intro e h
    exact captureLoop_error_final port top _ _ init _ 0 0 [] e h

/-- A port that always succeeds. -/
def okPort : ℕ → SnapResult := fun _ => SnapResult.ok

/-- Witness for C2 (amended) on a concrete successful single-frame run. -/
theorem c2_witness :
    (captureWithScrollAndCrop okPort 10 300 500 42).finalScrollTop = 42 :=
  (c2_amended okPort 10 300 500 42).1 [⟨0, 0⟩] (by
    simp only [captureWithScrollAndCrop]
    rw [if_neg (by norm_num [max_def])]
    simp [captureLoop, relScrollTop, snapshotFrame, attemptSnapshot, okPort])

/-! ## Claim C8 -/

/-- C8: per frame, a rate-limited snapshot request is retried up to 3
attempts total; three consecutive rate limits exhaust the retries and the
whole capture aborts with the rate-limit failure; a success within 3
attempts (rate-limited twice then success) captures the frame with no error;
and any non-rate-limit snapshot error aborts immediately without a retry. -/
theorem c8_retry_policy (port : ℕ → SnapResult) (n : ℕ) :
    (port n = SnapResult.rateLimited → port (n + 1) = SnapResult.rateLimited →
      port (n + 2) = SnapResult.rateLimited →
      snapshotFrame port n = Except.error CaptureError.retriesExhausted) ∧
    (port n = SnapResult.rateLimited → port (n + 1) = SnapResult.rateLimited →
      port (n + 2) = SnapResult.ok →
      snapshotFrame port n = Except.ok (n + 3)) ∧
    (port n = SnapResult.failed →
      snapshotFrame port n = Except.error CaptureError.snapshotFailed) ∧
    ((∀ j, port j = SnapResult.rateLimited) → ∀ top th cvh init : ℚ,
      (captureWithScrollAndCrop port top th cvh init).result
        = Except.error CaptureError.retriesExhausted) := by
  refine ⟨?_, ?_, ?_, ?_⟩
  · intro h1 h2 h3
    simp [snapshotFrame, attemptSnapshot, h1, h2, h3]
  · intro h1 h2 h3
    simp [snapshotFrame, attemptSnapshot, h1, h2, h3]
  · intro h1
    simp [snapshotFrame, attemptSnapshot, h1]
  · intro hall top th cvh init
    have hsf : snapshotFrame port 0
        = Except.error CaptureError.retriesExhausted := by
      simp [snapshotFrame, attemptSnapshot, hall]
    simp only [captureWithScrollAndCrop]
    split
    · simp [captureLoop, hsf]
    · simp [captureLoop, hsf]

/-- A port that rate-limits forever. -/
def rlPort : ℕ → SnapResult := fun _ => SnapResult.rateLimited

/-- A port that rate-limits twice, then succeeds. -/
def mixedPort : ℕ → SnapResult :=
  fun n => if n < 2 then SnapResult.rateLimited else SnapResult.ok

/-- A port that fails with a non-quota error. -/
def failPort : ℕ → SnapResult := fun _ => SnapResult.failed

/-- Witness for C8 at concrete ports exercising all three behaviours. -/
theorem c8_witness :
    snapshotFrame rlPort 0 = Except.error CaptureError.retriesExhausted ∧
    snapshotFrame mixedPort 0 = Except.ok 3 ∧
    snapshotFrame failPort 0 = Except.error CaptureError.snapshotFailed ∧
    (captureWithScrollAndCrop rlPort 0 1000 500 7).result
      = Except.error CaptureError.retriesExhausted :=
  ⟨(c8_retry_policy rlPort 0).1 rfl rfl rfl,
   (c8_retry_policy mixedPort 0).2.1 rfl rfl rfl,
   (c8_retry_policy failPort 0).2.2.1 rfl,
   (c8_retry_policy rlPort 0).2.2.2 (fun _ => rfl) 0 1000 500 7⟩

end ESC
